import Mathlib

/-!
Verification development for the calamine_to_polars conversion library
(src/src/lib.rs): a shallow embedding of the cell model, the header
deduplicator, the all-string frame builder, the auto-type frame builder,
the column caster and the column-name accessor, together with theorems
settling the specified properties.

External collaborators (the calamine cell type and the polars column and
frame engine) are modelled from the specification's description of their
interfaces; everything else is translated directly from the Rust source.
-/

deriving instance DecidableEq for Except

namespace CTP

/-- Payload type standing in for Rust f64 values. No claim in this
development depends on floating-point arithmetic, only on cell kinds and
value identity, so f64 payloads are modelled as an integer payload with
decidable equality. -/
abbrev F64 := Int

/-- A calamine cell value (calamine Data): the tagged union of raw cell
kinds from the spec data model (integer, float, boolean, string, empty,
error) plus the datetime kind used by the all-string builder. A datetime
cell carries its display text and the optional result of its
datetime-to-text conversion (as_datetime may be unavailable). -/
inductive Cell where
  | cInt (i : Int)
  | cFloat (f : F64)
  | cBool (b : Bool)
  | cStr (s : String)
  | cDateTime (display : String) (asdt : Option String)
  | cEmpty
  | cError (msg : String)
deriving DecidableEq

/-- Rust is_int predicate on cells. -/
def Cell.is_int : Cell → Bool
  | .cInt _ => true
  | _ => false

/-- Rust is_float predicate on cells. -/
def Cell.is_float : Cell → Bool
  | .cFloat _ => true
  | _ => false

/-- Rust is_bool predicate on cells. -/
def Cell.is_bool : Cell → Bool
  | .cBool _ => true
  | _ => false

/-- Rust is_string predicate on cells. -/
def Cell.is_string : Cell → Bool
  | .cStr _ => true
  | _ => false

/-- Rust is_empty predicate on cells. -/
def Cell.is_empty : Cell → Bool
  | .cEmpty => true
  | _ => false

/-- Rust is_error predicate on cells. -/
def Cell.is_error : Cell → Bool
  | .cError _ => true
  | _ => false

/-- Rust is_datetime predicate on cells. -/
def Cell.is_datetime : Cell → Bool
  | .cDateTime _ _ => true
  | _ => false

/-- Rust get_int accessor: Some for integer cells, None otherwise. -/
def Cell.get_int : Cell → Option Int
  | .cInt i => some i
  | _ => none

/-- Rust get_float accessor: Some for float cells, None otherwise. -/
def Cell.get_float : Cell → Option F64
  | .cFloat f => some f
  | _ => none

/-- Rust get_bool accessor: Some for boolean cells, None otherwise. -/
def Cell.get_bool : Cell → Option Bool
  | .cBool b => some b
  | _ => none

/-- Rust get_string accessor: Some for string cells, None otherwise. -/
def Cell.get_string : Cell → Option String
  | .cStr s => some s
  | _ => none

/-- Rust as_datetime accessor, already composed with to_string: the
optional text render of a datetime cell. -/
def Cell.as_datetime : Cell → Option String
  | .cDateTime _ d => d
  | _ => none

/-- The Display implementation of a cell (cell.to_string() in the
source): integers and floats print their numeric text, booleans print
true or false, strings print themselves, datetimes print their display
text, empty cells print the empty string, error cells print their
message. -/
def Cell.toText : Cell → String
  | .cInt i => toString i
  | .cFloat f => toString f
  | .cBool b => if b then "true" else "false"
  | .cStr s => s
  | .cDateTime d _ => d
  | .cEmpty => ""
  | .cError m => m

/-- A polars column data type, restricted to the type tags the library
uses: Null, Boolean, Int64, Float64, String. -/
inductive DType where
  | tNull
  | tBool
  | tInt64
  | tFloat64
  | tStr
deriving DecidableEq

/-- A single stored column value (possibly a null). -/
inductive Value where
  | vNull
  | vInt (i : Int)
  | vFloat (f : F64)
  | vBool (b : Bool)
  | vStr (s : String)
deriving DecidableEq

/-- A polars Column: a name, a fixed data type, and the stored values. -/
structure Column where
  name : String
  dtype : DType
  values : List Value
deriving DecidableEq

/-- Modelled from the spec: Column.append(otherSingleValueColumn) of the
table engine (polars Series append). The append succeeds when the
incoming column has the same dtype, or when the incoming column is
null-typed (polars casts a null column into any schema type); otherwise
it fails with a schema mismatch. On success the incoming values are
appended. The null columns appended by the source are always empty, so
no null-value cast is needed on that path. -/
def Column.append (c other : Column) : Except String Column :=
  if other.dtype = c.dtype ∨ other.dtype = DType.tNull then
    Except.ok { c with values := c.values ++ other.values }
  else
    Except.error "SchemaMismatch"

/-- Polars Column::new_empty(name, dtype): a column of the given dtype
holding no values (length zero). -/
def Column.new_empty (name : String) (dt : DType) : Column :=
  ⟨name, dt, []⟩

/-- Map a fallible function over a list, failing when any element
fails (the Option-monad mapM, written out explicitly). -/
def mapOpt (f : α → Option β) : List α → Option (List β)
  | [] => some []
  | a :: l =>
    match f a, mapOpt f l with
    | some b, some bs => some (b :: bs)
    | _, _ => none

/-- Numeric value of a decimal digit character, if it is one. -/
def digitVal (c : Char) : Option Nat :=
  let n := c.toNat
  if 48 ≤ n ∧ n ≤ 57 then some (n - 48) else none

/-- Parse a nonempty all-digit character list as a natural number. -/
def parseDigits : List Char → Option Nat
  | [] => none
  | [c] => digitVal c
  | c :: cs =>
    match digitVal c, parseDigits cs with
    | some d, some n => some (n + d * 10 ^ cs.length)
    | _, _ => none

/-- Parse decimal integer text, with an optional leading minus sign
(the text-to-number conversion used by the modelled caster). -/
def parseInt (s : String) : Option Int :=
  match s.data with
  | '-' :: cs => (parseDigits cs).map (fun n => -(n : Int))
  | cs => (parseDigits cs).map (fun n => (n : Int))

/-- Modelled from the spec: a value-preserving conversion of one stored
value to a target type (the Column Caster contract, e.g. text "123" to
Integer64 123); fails when the value cannot be represented in the
target type. Nulls stay null under any cast; a value already of the
target type is returned unchanged. -/
def castValue (v : Value) (t : DType) : Option Value :=
  match v, t with
  | .vNull, _ => some .vNull
  | .vInt i, .tInt64 => some (.vInt i)
  | .vInt i, .tFloat64 => some (.vFloat i)
  | .vInt i, .tStr => some (.vStr (toString i))
  | .vInt _, _ => none
  | .vFloat f, .tFloat64 => some (.vFloat f)
  | .vFloat f, .tInt64 => some (.vInt f)
  | .vFloat f, .tStr => some (.vStr (toString f))
  | .vFloat _, _ => none
  | .vBool b, .tBool => some (.vBool b)
  | .vBool b, .tInt64 => some (.vInt (if b then 1 else 0))
  | .vBool b, .tStr => some (.vStr (if b then "true" else "false"))
  | .vBool _, _ => none
  | .vStr s, .tStr => some (.vStr s)
  | .vStr s, .tInt64 => (parseInt s).map Value.vInt
  | .vStr s, .tFloat64 => (parseInt s).map Value.vFloat
  | .vStr _, _ => none

/-- Modelled from the spec: Column.cast(targetType) of the table engine:
converts every stored value to the target type, keeping the column name;
fails when some value cannot convert. -/
def Column.cast (c : Column) (t : DType) : Option Column :=
  match mapOpt (fun v => castValue v t) c.values with
  | some vs => some ⟨c.name, t, vs⟩
  | none => none

/-- A polars DataFrame: an ordered sequence of columns. -/
structure DataFrame where
  columns : List Column
deriving DecidableEq

/-- Modelled from the spec: Table.new(columns) of the table engine
(polars DataFrame::new), which fails if column lengths are
inconsistent. -/
def DataFrame_new (cols : List Column) : Except String DataFrame :=
  match cols with
  | [] => Except.ok ⟨[]⟩
  | c :: rest =>
    if rest.all (fun d => d.values.length = c.values.length) then
      Except.ok ⟨c :: rest⟩
    else
      Except.error "ShapeMismatch"

/-- How a library call can fail: err models a typed Result error (a value
returned through the question-mark operator or an explicit Err), while
panicked models a Rust panic (unwrap, expect, index out of bounds, or an
explicit panic). -/
inductive Failure where
  | err (e : String)
  | panicked (msg : String)
deriving DecidableEq

/-- The outcome of running a fallible, possibly panicking library
function. -/
abbrev Outcome (α : Type) := Except Failure α

/-- Read the occurrence count stored for a key in the header-count map
(HashMap lookup, association-list representation; absent keys count
zero). -/
def countOf (m : List (String × Nat)) (k : String) : Nat :=
  match m with
  | [] => 0
  | (k', v) :: rest => if k = k' then v else countOf rest k

/-- The header_counts.entry(key).or_insert(0) followed by the increment
in to_frame_all_str: returns the count before the increment together
with the updated map. -/
def bumpCount (m : List (String × Nat)) (k : String) : Nat × List (String × Nat) :=
  match m with
  | [] => (0, [(k, 1)])
  | (k', v) :: rest =>
    if k = k' then (v, (k', v + 1) :: rest)
    else
      let r := bumpCount rest k
      (r.1, (k', v) :: r.2)

/-- One step of the header deduplication loop in to_frame_all_str: look
up the running count for this text, emit the text unchanged when the
count is zero and the suffixed form otherwise, then increment the
count. -/
def dedupStep (m : List (String × Nat)) (s : String) : String × List (String × Nat) :=
  let r := bumpCount m s
  (if r.1 > 0 then s ++ "_duplicated_" ++ toString r.1 else s, r.2)

/-- The header deduplication loop of to_frame_all_str over the remaining
header cells, threading the count map. -/
def dedupTextsAux (m : List (String × Nat)) : List String → List String
  | [] => []
  | s :: ss =>
    let r := dedupStep m s
    r.1 :: dedupTextsAux r.2 ss

/-- The header deduplicator of to_frame_all_str (lines 68 to 83 of the
source): map every first-row cell to its text form and rename repeated
occurrences with the duplicated suffix. -/
def dedupHeaders (cells : List Cell) : List String :=
  dedupTextsAux [] (cells.map Cell.toText)

/-- The cell-to-text conversion of the all-string builder: a datetime
cell renders through as_datetime (falling back to the empty string when
unavailable), every other cell through its Display text. -/
def cellStrAllStr (c : Cell) : String :=
  if c.is_datetime then (c.as_datetime).getD "" else c.toText

/-- Pair each built string column with its deduplicated header name
(the zip with headers in to_frame_all_str); every column is
String-typed. -/
def zipCols : List (List Value) → List String → List Column
  | vs :: vss, n :: ns => ⟨n, DType.tStr, vs⟩ :: zipCols vss ns
  | _, _ => []

/-- to_frame_all_str (lines 64 to 114 of the source): deduplicate the
header row, push every later cell's text into its column (indexing
columns by the cell's position panics when a data row is wider than the
header), and build the DataFrame. The sheet is a list of rows of
cells. -/
def to_frame_all_str (rows : List (List Cell)) : Outcome DataFrame :=
  match rows with
  | [] => Except.error (Failure.err "No data")
  | hrow :: dataRows =>
    let headers := dedupHeaders hrow
    if dataRows.any (fun r => decide (headers.length < r.length)) then
      Except.error (Failure.panicked "index out of bounds")
    else
      let colVals : List (List Value) :=
        (List.range headers.length).map (fun j =>
          dataRows.filterMap (fun r => (r.get? j).map (fun c => Value.vStr (cellStrAllStr c))))
      match DataFrame_new (zipCols colVals headers) with
      | Except.ok df => Except.ok df
      | Except.error e => Except.error (Failure.err e)

/-- Phase 2 of to_frame_auto_type, one sample cell (lines 136 to 166):
fix the column type from the cell kind and build a one-element column
(an empty sample cell builds a String column holding the default empty
string, since get_string().unwrap_or_default() yields an empty string
slice); error-kind and unrecognized-kind cells panic. -/
def phase2cell (header : String) (c : Cell) : Outcome Column :=
  match c with
  | .cInt i => Except.ok ⟨header, DType.tInt64, [Value.vInt i]⟩
  | .cFloat f => Except.ok ⟨header, DType.tFloat64, [Value.vFloat f]⟩
  | .cBool b => Except.ok ⟨header, DType.tBool, [Value.vBool b]⟩
  | .cStr s => Except.ok ⟨header, DType.tStr, [Value.vStr s]⟩
  | .cEmpty => Except.ok ⟨header, DType.tStr, [Value.vStr ""]⟩
  | .cError _ => Except.error (Failure.panicked "This cell is error. The first row of the ramaining part decides each column's data type")
  | .cDateTime _ _ => Except.error (Failure.panicked "Unknown error. The first row of the ramaining part decides each column's data type")

/-- Phase 2 of to_frame_auto_type over the whole sample row, with the
running column index (headers indexing panics when the sample row is
wider than the header row). -/
def phase2cells (headers : List String) : List Cell → Nat → Outcome (List Column)
  | [], _ => Except.ok []
  | c :: cs, j =>
    match headers.get? j with
    | none => Except.error (Failure.panicked "index out of bounds")
    | some h =>
      match phase2cell h c with
      | Except.ok col =>
        match phase2cells headers cs (j + 1) with
        | Except.ok rest => Except.ok (col :: rest)
        | Except.error e => Except.error e
      | Except.error e => Except.error e

/-- The diagnostic line printed on a failed numeric append in phase 3
(lines 185 and 205 of the source, also the expect message of the strict
arms). -/
def mismatchMsg (rowIdx colIdx : Nat) (header ty : String) : String :=
  "row " ++ toString rowIdx ++ ", col " ++ header ++ " (column index " ++
    toString colIdx ++ "): expected " ++ ty

/-- Phase 3 of to_frame_auto_type, one cell (lines 175 to 243): build a
single-value column of the dtype matching the cell kind and append it
to the already-typed column. Integer-kind and float-kind cells recover
from a failed append by logging the diagnostic line and dropping the
value; boolean-kind and string-kind cells panic through expect on a
failed append; empty-kind cells append a zero-length null-typed column
(Column::new_empty), which always succeeds and appends nothing;
error-kind and unrecognized-kind cells panic. The result carries the
optional stderr line. -/
def phase3cell (rowIdx colIdx : Nat) (header : String) (col : Column) (c : Cell) :
    Outcome (Column × Option String) :=
  match c with
  | .cInt i =>
    match col.append ⟨header, DType.tInt64, [Value.vInt i]⟩ with
    | Except.ok col' => Except.ok (col', none)
    | Except.error _ => Except.ok (col, some (mismatchMsg rowIdx colIdx header "int"))
  | .cFloat f =>
    match col.append ⟨header, DType.tFloat64, [Value.vFloat f]⟩ with
    | Except.ok col' => Except.ok (col', none)
    | Except.error _ => Except.ok (col, some (mismatchMsg rowIdx colIdx header "float"))
  | .cBool b =>
    match col.append ⟨header, DType.tBool, [Value.vBool b]⟩ with
    | Except.ok col' => Except.ok (col', none)
    | Except.error _ => Except.error (Failure.panicked (mismatchMsg rowIdx colIdx header "bool"))
  | .cStr s =>
    match col.append ⟨header, DType.tStr, [Value.vStr s]⟩ with
    | Except.ok col' => Except.ok (col', none)
    | Except.error _ => Except.error (Failure.panicked (mismatchMsg rowIdx colIdx header "string"))
  | .cEmpty =>
    match col.append (Column.new_empty header DType.tNull) with
    | Except.ok col' => Except.ok (col', none)
    | Except.error _ => Except.error (Failure.panicked "unwrap on append")
  | .cError _ => Except.error (Failure.panicked "Error when reading all data...")
  | .cDateTime _ _ => Except.error (Failure.panicked "Error when reading all data...")

/-- Phase 3 of to_frame_auto_type over one row, with the running column
index, updating the column at each cell's position (indexing headers or
columns out of bounds panics) and accumulating stderr lines in order. -/
def phase3cells (rowIdx : Nat) (headers : List String) (cols : List Column)
    (logs : List String) : List Cell → Nat → Outcome (List Column × List String)
  | [], _ => Except.ok (cols, logs)
  | c :: cs, j =>
    match headers.get? j, cols.get? j with
    | some h, some col =>
      match phase3cell rowIdx j h col c with
      | Except.ok (col', entry) =>
        phase3cells rowIdx headers (cols.set j col') (logs ++ entry.toList) cs (j + 1)
      | Except.error e => Except.error e
    | _, _ => Except.error (Failure.panicked "index out of bounds")

/-- Phase 3 of to_frame_auto_type over all remaining rows, enumerating
row indices from zero (rows().skip(2).enumerate()). -/
def phase3rows (headers : List String) : Nat → List Column → List String →
    List (List Cell) → Outcome (List Column × List String)
  | _, cols, logs, [] => Except.ok (cols, logs)
  | rowIdx, cols, logs, r :: rs =>
    match phase3cells rowIdx headers cols logs r 0 with
    | Except.ok (cols', logs') => phase3rows headers (rowIdx + 1) cols' logs' rs
    | Except.error e => Except.error e

/-- to_frame_auto_type (lines 116 to 250 of the source), also returning
the stderr diagnostic lines emitted by phase 3: extract headers from the
first row (no deduplication in this builder), unwrap the sample row
(panics when the sheet has fewer than two rows), run phase 2, run the
debug DataFrame construction of line 169 (its unwrap, with the length
check of the modelled constructor, cannot fire on the one-element
phase-2 columns), run phase 3, and build the final DataFrame through the
question-mark operator. The write-only column_types vector of the source
is elided: it is never read. -/
def to_frame_auto_type_full (rows : List (List Cell)) :
    Outcome (DataFrame × List String) :=
  match rows with
  | [] => Except.error (Failure.err "No data")
  | hrow :: rest =>
    let headers := hrow.map Cell.toText
    match rest.head? with
    | none => Except.error (Failure.panicked "called Option unwrap on a None value")
    | some srow =>
      match phase2cells headers srow 0 with
      | Except.error e => Except.error e
      | Except.ok cols =>
        match DataFrame_new cols with
        | Except.error _ => Except.error (Failure.panicked "unwrap on DataFrame construction")
        | Except.ok _ =>
          match phase3rows headers 0 cols [] (rest.drop 1) with
          | Except.error e => Except.error e
          | Except.ok (cols', logs) =>
            match DataFrame_new cols' with
            | Except.ok df => Except.ok (df, logs)
            | Except.error e => Except.error (Failure.err e)

/-- to_frame_auto_type as the caller sees it: the returned DataFrame,
with the stderr lines discarded. -/
def to_frame_auto_type (rows : List (List Cell)) : Outcome DataFrame :=
  match to_frame_auto_type_full rows with
  | Except.ok (df, _) => Except.ok df
  | Except.error e => Except.error e

/-- The inner loop of with_types for one source column: the columns
pushed for the pairs whose name matches, in pair order, each cast
through unwrap (a failed cast panics). -/
def castMatches (col : Column) : List (String × DType) → Outcome (List Column)
  | [] => Except.ok []
  | p :: ps =>
    match col.cast p.2 with
    | some c =>
      match castMatches col ps with
      | Except.ok cs => Except.ok (c :: cs)
      | Except.error e => Except.error e
    | none => Except.error (Failure.panicked "unwrap on cast")

/-- One iteration of the outer loop of with_types (lines 26 to 37): when
no pair names this column it is pushed unchanged; otherwise one cast
column is pushed per matching pair. -/
def processColumn (pairs : List (String × DType)) (col : Column) : Outcome (List Column) :=
  match pairs.filter (fun p => p.1 = col.name) with
  | [] => Except.ok [col]
  | m :: ms => castMatches col (m :: ms)

/-- The outer loop of with_types over all source columns, concatenating
the pushed columns in source order. -/
def colLists (pairs : List (String × DType)) : List Column → Outcome (List Column)
  | [] => Except.ok []
  | col :: rest =>
    match processColumn pairs col with
    | Except.ok l =>
      match colLists pairs rest with
      | Except.ok r => Except.ok (l ++ r)
      | Except.error e => Except.error e
    | Except.error e => Except.error e

/-- with_types (lines 20 to 40 of the source): rebuild the column list
with the requested casts and construct the result through
DataFrame::new(...).unwrap() inside Ok (a failed construction panics;
the typed Err branch of the declared return type is never built). -/
def with_types (df : DataFrame) (pairs : List (String × DType)) : Outcome DataFrame :=
  match colLists pairs df.columns with
  | Except.ok all =>
    match DataFrame_new all with
    | Except.ok d => Except.ok d
    | Except.error _ => Except.error (Failure.panicked "unwrap on DataFrame construction")
  | Except.error e => Except.error e

/-- A workbook: named sheets, each a list of rows of cells (the
rectangular calamine Range, whose rows share one width). -/
abbrev Workbook := List (String × List (List Cell))

/-- worksheet_range as used by the reader (open_sheet, line 268): look
the sheet up by name. -/
def worksheet_range (wb : Workbook) (name : String) : Option (List (List Cell)) :=
  (wb.find? (fun p => p.1 = name)).map (fun p => p.2)

/-- get_column_names (lines 277 to 294 of the source): when the sheet
lookup succeeds, format the first-row cell at every column index of the
sheet width (the width of the rectangular range, here the first row's
length) through get_value and unwrap; when the sheet has no rows the
width is zero and the empty list is returned. When the lookup fails,
return the Missing column name error. No deduplication is applied. -/
def get_column_names (wb : Workbook) (sheet : String) : Outcome (List String) :=
  match worksheet_range wb sheet with
  | some rows =>
    let width := ((rows.head?).map List.length).getD 0
    match mapOpt (fun idx => (rows.head?.bind (fun r => r.get? idx)).map Cell.toText)
        (List.range width) with
    | some names => Except.ok names
    | none => Except.error (Failure.panicked "called Option unwrap on a None value")
  | none => Except.error (Failure.err "Missing column name")

/-- Occurrences of a text in a list of texts (used to phrase the k-th
occurrence rule of the header deduplicator). -/
def occCount (t : String) : List String → Nat
  | [] => 0
  | s :: ss => (if t = s then 1 else 0) + occCount t ss

theorem DataFrame_new_ok_columns {cols : List Column} {df : DataFrame}
    (h : DataFrame_new cols = Except.ok df) : df = ⟨cols⟩ := by
  match cols with
  | [] =>
    simp only [DataFrame_new] at h
    exact (Except.ok.injEq _ _).mp h |>.symm ▸ rfl
  | c :: rest =>
    simp only [DataFrame_new] at h
    split at h
    · exact ((Except.ok.injEq _ _).mp h).symm ▸ rfl
    · exact absurd h (by simp)

theorem DataFrame_new_ok_lengths {cols : List Column} {df : DataFrame}
    (h : DataFrame_new cols = Except.ok df) :
    ∀ c ∈ df.columns, ∀ c' ∈ df.columns, c.values.length = c'.values.length := by
  match cols with
  | [] =>
    have hdf := DataFrame_new_ok_columns h
    subst hdf
    intro c hc
    simp at hc
  | c0 :: rest =>
    have hdf := DataFrame_new_ok_columns h
    subst hdf
    simp only [DataFrame_new] at h
    split at h
    · rename_i hall
      have hlen : ∀ d ∈ c0 :: rest, d.values.length = c0.values.length := by
        intro d hd
        rcases List.mem_cons.mp hd with h1 | h2
        · rw [h1]
        · exact of_decide_eq_true (List.all_eq_true.mp hall d h2)
      intro c hc c' hc'
      rw [hlen c hc, hlen c' hc']
    · exact absurd h (by simp)

theorem DataFrame_new_ok_of_lengths (cols : List Column) (n : Nat)
    (h : ∀ c ∈ cols, c.values.length = n) : DataFrame_new cols = Except.ok ⟨cols⟩ := by
  match cols with
  | [] => rfl
  | c :: rest =>
    simp only [DataFrame_new]
    have : rest.all (fun d => decide (d.values.length = c.values.length)) = true := by
      refine List.all_eq_true.mpr ?_
      intro d hd
      refine decide_eq_true ?_
      rw [h d (List.mem_cons_of_mem _ hd), h c (List.mem_cons_self c rest)]
    rw [this]
    simp

/-- C1 counterexample: for the sheet with header text h, integer sample
cell 42 (fixing the column to Integer64) and a string-kind cell in the
next row, to_frame_auto_type aborts with a panic on the failed append
instead of logging and dropping the cell and continuing, contradicting
the claim that ingestion continues and no error is raised for that
cell. -/
theorem c1_counterexample :
    to_frame_auto_type [[Cell.cStr "h"], [Cell.cInt 42], [Cell.cStr "oops"]] =
      Except.error (Failure.panicked "row 0, col h (column index 0): expected string") := rfl

/-- C1 (amended): with column j's type fixed to Integer64 by the sample
row, a string-kind cell at column j in any later row is fatal, not
recoverable: the append fails and phase 3 aborts the whole build with a
panic carrying the expected-string message, so the build does not
continue for that cell (the log-and-drop recovery applies to integer-
and float-kind cells instead). -/
theorem c1_string_mismatch_aborts (rowIdx colIdx : Nat) (header : String)
    (col : Column) (hdt : col.dtype = DType.tInt64) (s : String) :
    phase3cell rowIdx colIdx header col (Cell.cStr s) =
      Except.error (Failure.panicked (mismatchMsg rowIdx colIdx header "string")) := by
  simp [phase3cell, Column.append, hdt]

/-- Witness for the amended C1 at the concrete Integer64 column built
from sample cell 42 and the string cell oops. -/
theorem c1_witness :
    phase3cell 0 0 "h" ⟨"h", DType.tInt64, [Value.vInt 42]⟩ (Cell.cStr "oops") =
      Except.error (Failure.panicked (mismatchMsg 0 0 "h" "string")) :=
  c1_string_mismatch_aborts 0 0 "h" ⟨"h", DType.tInt64, [Value.vInt 42]⟩ rfl "oops"

/-- C2 counterexample: for the sheet with header text h, string sample
cell x (fixing the column to String) and an integer-kind cell in the
next row, to_frame_auto_type does not abort: the mismatched cell is
logged to stderr and dropped and a one-row table is returned,
contradicting the claim of an immediate UnclassifiableCell abort. -/
theorem c2_counterexample :
    to_frame_auto_type_full [[Cell.cStr "h"], [Cell.cStr "x"], [Cell.cInt 7]] =
      Except.ok (⟨[⟨"h", DType.tStr, [Value.vStr "x"]⟩]⟩,
        ["row 0, col h (column index 0): expected int"]) := rfl

/-- C2 (amended): with column j's type fixed to String by the sample
row, an integer-kind cell at column j in any later row is recoverable,
not fatal: the failed append is logged with the row index, column name
and column index, the value is silently dropped (the column does not
grow), and ingestion continues. -/
theorem c2_int_mismatch_dropped (rowIdx colIdx : Nat) (header : String)
    (col : Column) (hdt : col.dtype = DType.tStr) (i : Int) :
    phase3cell rowIdx colIdx header col (Cell.cInt i) =
      Except.ok (col, some (mismatchMsg rowIdx colIdx header "int")) := by
  simp [phase3cell, Column.append, hdt]

/-- Witness for the amended C2 at the concrete String column built from
sample cell x and the integer cell 7. -/
theorem c2_witness :
    phase3cell 0 0 "h" ⟨"h", DType.tStr, [Value.vStr "x"]⟩ (Cell.cInt 7) =
      Except.ok (⟨"h", DType.tStr, [Value.vStr "x"]⟩, some (mismatchMsg 0 0 "h" "int")) :=
  c2_int_mismatch_dropped 0 0 "h" ⟨"h", DType.tStr, [Value.vStr "x"]⟩ rfl 7

/-- C4 counterexample: for the sheet with header text h, integer sample
cell 1 and one later empty-kind cell, two data rows are ingested but the
returned column holds a single value: the empty-kind cell did not grow
the column by one, contradicting the claim. -/
theorem c4_counterexample :
    to_frame_auto_type [[Cell.cStr "h"], [Cell.cInt 1], [Cell.cEmpty]] =
      Except.ok ⟨[⟨"h", DType.tInt64, [Value.vInt 1]⟩]⟩ ∧
    [Value.vInt 1].length ≠ 2 := ⟨rfl, by decide⟩

/-- C4 (amended): during phase 3 of to_frame_auto_type, an empty-kind
cell at column j appends a zero-length null-typed column
(Column::new_empty), which always succeeds and appends no value: column
j's length is unchanged for that cell and no failure is raised. -/
theorem c4_empty_cell_appends_nothing (rowIdx colIdx : Nat) (header : String)
    (col : Column) :
    phase3cell rowIdx colIdx header col Cell.cEmpty = Except.ok (col, none) := by
  simp [phase3cell, Column.append, Column.new_empty]

/-- C3 counterexample: a two-column sheet (integer samples 1 and 2)
whose third row holds a float-kind cell in the first column and an
integer-kind cell in the second: phase 3 drops the mismatched float
cell, the two columns end with lengths 1 and 2, and to_frame_auto_type
fails with the length-mismatch error instead of returning a table with
unequal column lengths. -/
theorem c3_counterexample :
    to_frame_auto_type [[Cell.cStr "h1", Cell.cStr "h2"],
        [Cell.cInt 1, Cell.cInt 2], [Cell.cFloat 5, Cell.cInt 3]] =
      Except.error (Failure.err "ShapeMismatch") := rfl

/-- C3 (amended): to_frame_auto_type never returns a table with unequal
column lengths: whenever it returns a table, every two of its columns
have the same length. On inputs where phase-3 drops desynchronize the
per-column lengths, the final table construction fails and an error is
returned instead (see the counterexample). -/
theorem c3_returned_columns_equal_length (rows : List (List Cell)) (df : DataFrame)
    (h : to_frame_auto_type rows = Except.ok df) :
    ∀ c ∈ df.columns, ∀ c' ∈ df.columns, c.values.length = c'.values.length := by
  unfold to_frame_auto_type at h
  cases hfull : to_frame_auto_type_full rows with
  | error e => rw [hfull] at h; simp at h
  | ok pair =>
    rw [hfull] at h
    obtain ⟨df0, logs⟩ := pair
    simp only [Except.ok.injEq] at h
    subst h
    unfold to_frame_auto_type_full at hfull
    split at hfull
    · simp at hfull
    · rename_i hrow rest
      cases hhd : rest.head? with
      | none => simp only [hhd] at hfull; exact absurd hfull (by simp)
      | some srow =>
        simp only [hhd] at hfull
        cases hp2 : phase2cells (hrow.map Cell.toText) srow 0 with
        | error e => simp only [hp2] at hfull; exact absurd hfull (by simp)
        | ok cols =>
          simp only [hp2] at hfull
          cases hdbg : DataFrame_new cols with
          | error e => simp only [hdbg] at hfull; exact absurd hfull (by simp)
          | ok dfdbg =>
            simp only [hdbg] at hfull
            cases hp3 : phase3rows (hrow.map Cell.toText) 0 cols [] (rest.drop 1) with
            | error e => simp only [hp3] at hfull; exact absurd hfull (by simp)
            | ok pr =>
              simp only [hp3] at hfull
              obtain ⟨cols', logs'⟩ := pr
              cases hdn : DataFrame_new cols' with
              | error e => simp only [hdn] at hfull; exact absurd hfull (by simp)
              | ok dffin =>
                simp only [hdn, Except.ok.injEq, Prod.mk.injEq] at hfull
                obtain ⟨h1, _⟩ := hfull
                subst h1
                exact DataFrame_new_ok_lengths hdn

/-- Witness for the amended C3: the clean two-column integer sheet
returns a table, and the theorem yields that its two columns have the
same length. -/
theorem c3_witness :
    (⟨"h1", DType.tInt64, [Value.vInt 1, Value.vInt 3]⟩ : Column).values.length =
      (⟨"h2", DType.tInt64, [Value.vInt 2, Value.vInt 4]⟩ : Column).values.length :=
  c3_returned_columns_equal_length
    [[Cell.cStr "h1", Cell.cStr "h2"], [Cell.cInt 1, Cell.cInt 2],
      [Cell.cInt 3, Cell.cInt 4]]
    ⟨[⟨"h1", DType.tInt64, [Value.vInt 1, Value.vInt 3]⟩,
      ⟨"h2", DType.tInt64, [Value.vInt 2, Value.vInt 4]⟩]⟩ rfl
    ⟨"h1", DType.tInt64, [Value.vInt 1, Value.vInt 3]⟩ (by decide)
    ⟨"h2", DType.tInt64, [Value.vInt 2, Value.vInt 4]⟩ (by decide)

theorem bumpCount_fst (m : List (String × Nat)) (k : String) :
    (bumpCount m k).1 = countOf m k := by
  induction m with
  | nil => rfl
  | cons p rest ih =>
    obtain ⟨k', v⟩ := p
    by_cases h : k = k' <;> simp [bumpCount, countOf, h, ih]

theorem countOf_bumpCount (m : List (String × Nat)) (k j : String) :
    countOf (bumpCount m k).2 j = countOf m j + (if j = k then 1 else 0) := by
  induction m with
  | nil => by_cases h : j = k <;> simp [bumpCount, countOf, h]
  | cons p rest ih =>
    obtain ⟨k', v⟩ := p
    by_cases h1 : k = k'
    · subst h1
      by_cases h2 : j = k <;> simp [bumpCount, countOf, h2]
    · by_cases h2 : j = k'
      · have hjk : ¬ j = k := by rw [h2]; intro he; exact h1 he.symm
        have h1' : ¬ k' = k := fun he => h1 he.symm
        simp [bumpCount, countOf, h1, h1', h2, hjk]
      · simp [bumpCount, countOf, h1, h2, ih]

theorem dedupTextsAux_length (ts : List String) :
    ∀ m, (dedupTextsAux m ts).length = ts.length := by
  induction ts with
  | nil => intro m; rfl
  | cons s rest ih => intro m; simp [dedupTextsAux, ih]

theorem dedupTextsAux_get? (ts : List String) :
    ∀ (m : List (String × Nat)) (i : Nat) (t : String), ts.get? i = some t →
    (dedupTextsAux m ts).get? i =
      some (if countOf m t + occCount t (ts.take (i+1)) = 1 then t
            else t ++ "_duplicated_" ++
              toString (countOf m t + occCount t (ts.take (i+1)) - 1)) := by
  induction ts with
  | nil => intro m i t h; simp at h
  | cons s rest ih =>
    intro m i t h
    match i with
    | 0 =>
      rw [List.get?_cons_zero, Option.some.injEq] at h
      subst h
      by_cases hc : countOf m s = 0 <;>
        simp [dedupTextsAux, dedupStep, bumpCount_fst, occCount, hc, Nat.pos_iff_ne_zero]
    | i' + 1 =>
      rw [List.get?_cons_succ] at h
      have lhs : (dedupTextsAux m (s :: rest)).get? (i' + 1) =
          (dedupTextsAux (dedupStep m s).2 rest).get? i' := by
        simp [dedupTextsAux]
      rw [lhs, ih _ i' t h]
      have hk : countOf (dedupStep m s).2 t + occCount t (rest.take (i' + 1)) =
          countOf m t + occCount t ((s :: rest).take (i' + 1 + 1)) := by
        show countOf (bumpCount m s).2 t + _ = _
        rw [countOf_bumpCount]
        simp [List.take_cons, occCount]
        by_cases ht : t = s
        · simp [ht]
          omega
        · simp [ht]
      rw [hk]

/-- C5: the header deduplicator of to_frame_all_str emits, for the cell
at index i whose text t is the k-th occurrence of t among the first i+1
header texts (k at least 1), the text unchanged when k = 1 and the name
t_duplicated_(k-1) when k > 1; the output has the same length as the
row; for the texts a, a, a the output is a, a_duplicated_1,
a_duplicated_2. -/
theorem c5_header_dedup (row : List Cell) (i : Nat) (t : String)
    (h : (row.map Cell.toText).get? i = some t) :
    (dedupHeaders row).length = row.length ∧
    (dedupHeaders row).get? i =
      some (if occCount t ((row.map Cell.toText).take (i+1)) = 1 then t
            else t ++ "_duplicated_" ++
              toString (occCount t ((row.map Cell.toText).take (i+1)) - 1)) ∧
    dedupHeaders [Cell.cStr "a", Cell.cStr "a", Cell.cStr "a"] =
      ["a", "a_duplicated_1", "a_duplicated_2"] := by
  refine ⟨?_, ?_, rfl⟩
  · unfold dedupHeaders
    rw [dedupTextsAux_length]
    simp
  · unfold dedupHeaders
    have hx := dedupTextsAux_get? (row.map Cell.toText) [] i t h
    simpa [countOf] using hx

/-- Witness for C5 at the concrete header row a, a, a and index 1. -/
theorem c5_witness :
    (dedupHeaders [Cell.cStr "a", Cell.cStr "a", Cell.cStr "a"]).length =
      [Cell.cStr "a", Cell.cStr "a", Cell.cStr "a"].length ∧
    (dedupHeaders [Cell.cStr "a", Cell.cStr "a", Cell.cStr "a"]).get? 1 =
      some (if occCount "a"
          (([Cell.cStr "a", Cell.cStr "a", Cell.cStr "a"].map Cell.toText).take 2) = 1
        then "a"
        else "a" ++ "_duplicated_" ++
          toString (occCount "a"
            (([Cell.cStr "a", Cell.cStr "a", Cell.cStr "a"].map Cell.toText).take 2) - 1)) ∧
    dedupHeaders [Cell.cStr "a", Cell.cStr "a", Cell.cStr "a"] =
      ["a", "a_duplicated_1", "a_duplicated_2"] :=
  c5_header_dedup [Cell.cStr "a", Cell.cStr "a", Cell.cStr "a"] 1 "a" rfl

theorem filterMap_length_all_some {α β : Type} (f : α → Option β) (l : List α)
    (h : ∀ a ∈ l, (f a).isSome) : (l.filterMap f).length = l.length := by
  induction l with
  | nil => rfl
  | cons a l ih =>
    cases hfa : f a with
    | none => exact absurd (hfa ▸ h a (List.mem_cons_self a l)) (by simp)
    | some b =>
      simp only [List.filterMap_cons, hfa, List.length_cons]
      rw [ih (fun x hx => h x (List.mem_cons_of_mem _ hx))]

theorem zipCols_length (vss : List (List Value)) (ns : List String)
    (h : vss.length = ns.length) : (zipCols vss ns).length = ns.length := by
  induction vss generalizing ns with
  | nil =>
    cases ns with
    | nil => rfl
    | cons n ns => simp at h
  | cons vs vss ih =>
    cases ns with
    | nil => simp at h
    | cons n ns => simp [zipCols, ih ns (by simpa using h)]

theorem zipCols_mem (vss : List (List Value)) (ns : List String) :
    ∀ c ∈ zipCols vss ns, c.dtype = DType.tStr ∧ c.values ∈ vss := by
  induction vss generalizing ns with
  | nil => intro c hc; cases ns <;> simp [zipCols] at hc
  | cons vs vss ih =>
    intro c hc
    cases ns with
    | nil => simp [zipCols] at hc
    | cons n ns =>
      simp only [zipCols] at hc
      rcases List.mem_cons.mp hc with h1 | h2
      · subst h1
        exact ⟨rfl, List.mem_cons_self _ _⟩
      · obtain ⟨hd, hm⟩ := ih ns c h2
        exact ⟨hd, List.mem_cons_of_mem _ hm⟩

theorem dedupHeaders_length (cells : List Cell) :
    (dedupHeaders cells).length = cells.length := by
  unfold dedupHeaders
  rw [dedupTextsAux_length]
  simp

/-- C6: for every non-empty rectangular sheet (a header row and data
rows of the header's width), to_frame_all_str returns a table whose
column count equals the header width, in which every column is
String-typed with length exactly the number of data rows (row count
minus one), and the per-cell text conversion is total: a datetime cell
renders through its datetime-to-text conversion, falling back to the
empty text when that conversion is unavailable, and every other cell
uses the generic Display conversion. -/
theorem c6_all_str_shape (hrow : List Cell) (dataRows : List (List Cell))
    (hw : ∀ r ∈ dataRows, r.length = hrow.length) :
    ∃ df, to_frame_all_str (hrow :: dataRows) = Except.ok df ∧
      df.columns.length = hrow.length ∧
      (∀ c ∈ df.columns, c.dtype = DType.tStr ∧ c.values.length = dataRows.length) ∧
      (∀ disp d, cellStrAllStr (Cell.cDateTime disp (some d)) = d) ∧
      (∀ disp, cellStrAllStr (Cell.cDateTime disp none) = "") ∧
      (∀ c : Cell, c.is_datetime = false → cellStrAllStr c = c.toText) := by
  have hlen := dedupHeaders_length hrow
  have hany : dataRows.any (fun r => decide ((dedupHeaders hrow).length < r.length)) = false := by
    rw [List.any_eq_false]
    intro r hr
    simp [hlen, hw r hr]
  have hcv : ∀ vs ∈ (List.range (dedupHeaders hrow).length).map (fun j =>
      dataRows.filterMap (fun r => (r.get? j).map (fun c => Value.vStr (cellStrAllStr c)))),
      vs.length = dataRows.length := by
    intro vs hvs
    obtain ⟨j, hj, rfl⟩ := List.mem_map.mp hvs
    rw [List.mem_range] at hj
    refine filterMap_length_all_some _ _ ?_
    intro r hr
    have hjr : j < r.length := by rw [hw r hr, ← hlen]; exact hj
    have : (r.get? j).isSome := by rw [List.get?_eq_get hjr]; rfl
    simpa using this
  have hcols : ∀ c ∈ zipCols ((List.range (dedupHeaders hrow).length).map (fun j =>
      dataRows.filterMap (fun r => (r.get? j).map (fun c => Value.vStr (cellStrAllStr c)))))
      (dedupHeaders hrow), c.dtype = DType.tStr ∧ c.values.length = dataRows.length := by
    intro c hc
    obtain ⟨hd, hm⟩ := zipCols_mem _ _ c hc
    exact ⟨hd, hcv _ hm⟩
  have hdn := DataFrame_new_ok_of_lengths _ dataRows.length (fun c hc => (hcols c hc).2)
  refine ⟨⟨zipCols ((List.range (dedupHeaders hrow).length).map (fun j =>
      dataRows.filterMap (fun r => (r.get? j).map (fun c => Value.vStr (cellStrAllStr c)))))
      (dedupHeaders hrow)⟩, ?_, ?_, ?_, fun disp d => rfl, fun disp => rfl, ?_⟩
  · simp only [to_frame_all_str, hany, Bool.false_eq_true, if_false, hdn]
  · rw [zipCols_length _ _ (by simp [hlen]), hlen]
  · exact hcols
  · intro c hnd
    cases c <;> simp [cellStrAllStr, Cell.is_datetime] at hnd ⊢

/-- Witness for C6 at a concrete two-column sheet with one data row
holding an integer cell and a datetime cell without a datetime
render. -/
theorem c6_witness :
    ∃ df, to_frame_all_str [[Cell.cStr "a", Cell.cStr "b"],
        [Cell.cInt 1, Cell.cDateTime "d" none]] = Except.ok df ∧
      df.columns.length = [Cell.cStr "a", Cell.cStr "b"].length ∧
      (∀ c ∈ df.columns, c.dtype = DType.tStr ∧
        c.values.length = [[Cell.cInt 1, Cell.cDateTime "d" none]].length) ∧
      (∀ disp d, cellStrAllStr (Cell.cDateTime disp (some d)) = d) ∧
      (∀ disp, cellStrAllStr (Cell.cDateTime disp none) = "") ∧
      (∀ c : Cell, c.is_datetime = false → cellStrAllStr c = c.toText) :=
  c6_all_str_shape [Cell.cStr "a", Cell.cStr "b"]
    [[Cell.cInt 1, Cell.cDateTime "d" none]] (by decide)

theorem castMatches_no_err (col : Column) (ps : List (String × DType)) (f : Failure)
    (h : castMatches col ps = Except.error f) : ∃ m, f = Failure.panicked m := by
  induction ps with
  | nil => simp [castMatches] at h
  | cons p ps ih =>
    unfold castMatches at h
    cases hc : Column.cast col p.2 with
    | some c =>
      rw [hc] at h
      cases hcm : castMatches col ps with
      | ok cs => rw [hcm] at h; simp at h
      | error e =>
        rw [hcm] at h
        simp only [Except.error.injEq] at h
        subst h
        exact ih hcm
    | none =>
      rw [hc] at h
      simp only [Except.error.injEq] at h
      exact ⟨_, h.symm⟩

theorem processColumn_no_err (pairs : List (String × DType)) (col : Column) (f : Failure)
    (h : processColumn pairs col = Except.error f) : ∃ m, f = Failure.panicked m := by
  unfold processColumn at h
  split at h
  · simp at h
  · exact castMatches_no_err _ _ _ h

theorem colLists_no_err (pairs : List (String × DType)) (cols : List Column) (f : Failure)
    (h : colLists pairs cols = Except.error f) : ∃ m, f = Failure.panicked m := by
  induction cols with
  | nil => simp [colLists] at h
  | cons col rest ih =>
    unfold colLists at h
    cases hp : processColumn pairs col with
    | ok l =>
      rw [hp] at h
      cases hr : colLists pairs rest with
      | ok r => rw [hr] at h; simp at h
      | error e =>
        rw [hr] at h
        simp only [Except.error.injEq] at h
        subst h
        exact ih hr
    | error e =>
      rw [hp] at h
      simp only [Except.error.injEq] at h
      exact h ▸ processColumn_no_err _ _ _ hp

/-- C10: with_types never produces the Err branch of its declared
Result type: every run either returns Ok with a table, or aborts with a
panic (a failed column cast, or a failed final table construction, both
go through unwrap). -/
theorem c10_with_types_never_err (df : DataFrame) (pairs : List (String × DType)) :
    (∃ d, with_types df pairs = Except.ok d) ∨
    (∃ m, with_types df pairs = Except.error (Failure.panicked m)) := by
  unfold with_types
  cases hcl : colLists pairs df.columns with
  | ok all =>
    cases hdn : DataFrame_new all with
    | ok d => exact Or.inl ⟨d, by simp [hdn]⟩
    | error e => exact Or.inr ⟨"unwrap on DataFrame construction", by simp [hdn]⟩
  | error f =>
    obtain ⟨m, hm⟩ := colLists_no_err _ _ _ hcl
    exact Or.inr ⟨m, by rw [hm]⟩

theorem mapOpt_comp_map {α β γ : Type} (g : α → β) (f : β → Option γ) (l : List α) :
    mapOpt f (l.map g) = mapOpt (fun a => f (g a)) l := by
  induction l with
  | nil => rfl
  | cons a l ih => simp [mapOpt, ih]

theorem mapOpt_range_get? {α β : Type} (f : α → β) (l : List α) :
    mapOpt (fun idx => (l.get? idx).map f) (List.range l.length) = some (l.map f) := by
  induction l with
  | nil => rfl
  | cons a l ih =>
    rw [List.length_cons, List.range_succ_eq_map]
    simp only [mapOpt, List.get?_cons_zero, Option.map_some']
    rw [mapOpt_comp_map]
    simp only [List.get?_cons_succ]
    rw [ih]
    rfl

/-- C8 counterexample: for a sheet whose first row repeats the text a,
get_column_names returns the raw texts a, a although the 4.1
deduplicator would rename the repeat, and for an existing sheet with no
rows it returns the empty list instead of failing with a
missing-header condition. -/
theorem c8_counterexample :
    get_column_names [("s", [[Cell.cStr "a", Cell.cStr "a"]])] "s" =
      Except.ok ["a", "a"] ∧
    dedupHeaders [Cell.cStr "a", Cell.cStr "a"] = ["a", "a_duplicated_1"] ∧
    get_column_names [("t", ([] : List (List Cell)))] "t" = Except.ok [] :=
  ⟨rfl, rfl, rfl⟩

/-- C8 (amended): for every workbook and sheet name, when the sheet
lookup succeeds get_column_names returns the raw (non-deduplicated)
text forms of the sheet's first-row cells, the empty list when the
sheet has no rows; it fails with the Missing column name error exactly
when the sheet lookup fails. -/
theorem c8_get_column_names_raw (wb : Workbook) (sheet : String) :
    (∀ rows, worksheet_range wb sheet = some rows →
      get_column_names wb sheet = Except.ok (((rows.head?).getD []).map Cell.toText)) ∧
    (worksheet_range wb sheet = none →
      get_column_names wb sheet = Except.error (Failure.err "Missing column name")) := by
  constructor
  · intro rows hr
    unfold get_column_names
    rw [hr]
    cases rows with
    | nil => rfl
    | cons r0 rest =>
      simp only [List.head?_cons, Option.map_some', Option.getD_some, Option.some_bind]
      rw [mapOpt_range_get?]
  · intro hn
    unfold get_column_names
    rw [hn]

/-- Witness for the amended C8 at a concrete one-sheet workbook. -/
theorem c8_witness :
    get_column_names [("s", [[Cell.cStr "a", Cell.cStr "b"]])] "s" =
      Except.ok (((([[Cell.cStr "a", Cell.cStr "b"]] :
        List (List Cell)).head?).getD []).map Cell.toText) :=
  (c8_get_column_names_raw [("s", [[Cell.cStr "a", Cell.cStr "b"]])] "s").1
    [[Cell.cStr "a", Cell.cStr "b"]] rfl

theorem castValue_idem (v : Value) (t : DType) (w : Value)
    (h : castValue v t = some w) : castValue w t = some w := by
  cases v <;> cases t <;> simp_all [castValue] <;>
    (obtain ⟨i, hi, rfl⟩ := h; simp [castValue])

theorem mapOpt_length {α β : Type} (f : α → Option β) (l : List α) (l' : List β)
    (h : mapOpt f l = some l') : l'.length = l.length := by
  induction l generalizing l' with
  | nil => injection h with h; subst h; rfl
  | cons a l ih =>
    unfold mapOpt at h
    cases hfa : f a with
    | none => rw [hfa] at h; simp at h
    | some b =>
      rw [hfa] at h
      cases hml : mapOpt f l with
      | none => rw [hml] at h; simp at h
      | some bs =>
        rw [hml] at h
        simp only [Option.some.injEq] at h
        subst h
        simp [ih bs hml]

theorem mapOpt_idem (f : Value → Option Value)
    (hf : ∀ v w, f v = some w → f w = some w) :
    ∀ (l l' : List Value), mapOpt f l = some l' → mapOpt f l' = some l' := by
  intro l
  induction l with
  | nil => intro l' h; injection h with h; subst h; rfl
  | cons a l ih =>
    intro l' h
    unfold mapOpt at h
    cases hfa : f a with
    | none => rw [hfa] at h; simp at h
    | some b =>
      rw [hfa] at h
      cases hml : mapOpt f l with
      | none => rw [hml] at h; simp at h
      | some bs =>
        rw [hml] at h
        simp only [Option.some.injEq] at h
        subst h
        unfold mapOpt
        rw [hf a b hfa, ih bs hml]

theorem cast_ok_parts (col : Column) (t : DType) (col' : Column)
    (h : Column.cast col t = some col') :
    col'.name = col.name ∧ col'.dtype = t ∧ col'.values.length = col.values.length := by
  unfold Column.cast at h
  cases hm : mapOpt (fun v => castValue v t) col.values with
  | none => rw [hm] at h; simp at h
  | some vs =>
    rw [hm] at h
    simp only [Option.some.injEq] at h
    subst h
    exact ⟨rfl, rfl, mapOpt_length _ _ _ hm⟩

theorem cast_idem (col : Column) (t : DType) (col' : Column)
    (h : Column.cast col t = some col') : Column.cast col' t = some col' := by
  unfold Column.cast at h ⊢
  cases hm : mapOpt (fun v => castValue v t) col.values with
  | none => rw [hm] at h; simp at h
  | some vs =>
    rw [hm] at h
    simp only [Option.some.injEq] at h
    subst h
    rw [mapOpt_idem _ (fun v w => castValue_idem v t w) col.values vs hm]

theorem processColumn_single_idem (n : String) (t : DType) (col : Column) (l : List Column)
    (h : processColumn [(n, t)] col = Except.ok l) :
    ∀ x ∈ l, processColumn [(n, t)] x = Except.ok [x] := by
  unfold processColumn at h
  by_cases hn : n = col.name
  · rw [show ([((n : String), t)].filter (fun p => decide (p.1 = col.name))) = [(n, t)] by
      simp [hn]] at h
    unfold castMatches at h
    cases hc : Column.cast col t with
    | none => rw [hc] at h; simp at h
    | some c' =>
      rw [hc] at h
      simp only [castMatches, Except.ok.injEq] at h
      subst h
      intro x hx
      rcases List.mem_singleton.mp hx with rfl
      have hparts := cast_ok_parts col t x hc
      unfold processColumn
      rw [show ([((n : String), t)].filter (fun p => decide (p.1 = x.name))) = [(n, t)] by
        simp [hparts.1, hn]]
      unfold castMatches
      rw [cast_idem col t x hc]
      rfl
  · rw [show ([((n : String), t)].filter (fun p => decide (p.1 = col.name))) = [] by
      simp [hn]] at h
    simp only [Except.ok.injEq] at h
    subst h
    intro x hx
    rcases List.mem_singleton.mp hx with rfl
    unfold processColumn
    rw [show ([((n : String), t)].filter (fun p => decide (p.1 = x.name))) = [] by
      simp [hn]]

theorem colLists_of_pointwise (P : List (String × DType)) :
    ∀ (l : List Column), (∀ x ∈ l, processColumn P x = Except.ok [x]) →
    colLists P l = Except.ok l := by
  intro l
  induction l with
  | nil => intro _; rfl
  | cons c rest ih =>
    intro h
    unfold colLists
    rw [h c (List.mem_cons_self c rest), ih (fun x hx => h x (List.mem_cons_of_mem _ hx))]
    rfl

theorem colLists_ok_mem (P : List (String × DType)) :
    ∀ (cols all : List Column), colLists P cols = Except.ok all →
    ∀ x ∈ all, ∃ col lx, processColumn P col = Except.ok lx ∧ x ∈ lx := by
  intro cols
  induction cols with
  | nil =>
    intro all h x hx
    injection h with h
    subst h
    simp at hx
  | cons c rest ih =>
    intro all h x hx
    unfold colLists at h
    cases hp : processColumn P c with
    | error e => rw [hp] at h; simp at h
    | ok l =>
      rw [hp] at h
      cases hr : colLists P rest with
      | error e => rw [hr] at h; simp at h
      | ok r =>
        rw [hr] at h
        simp only [Except.ok.injEq] at h
        subst h
        rcases List.mem_append.mp hx with h1 | h2
        · exact ⟨c, l, hp, h1⟩
        · exact ih r hr x h2

theorem colLists_single_idem (n : String) (t : DType) (cols all : List Column)
    (h : colLists [(n, t)] cols = Except.ok all) :
    colLists [(n, t)] all = Except.ok all := by
  apply colLists_of_pointwise
  intro x hx
  obtain ⟨col, lx, hp, hxl⟩ := colLists_ok_mem _ cols all h x hx
  exact processColumn_single_idem n t col lx hp x hxl

/-- C9: casting with with_types is idempotent for a single (column
name, target type) pair: when one application succeeds and returns a
table, applying with_types again to that table with the same pair
returns the same table (a column already of the target type converts
to itself). -/
theorem c9_cast_idempotent (df : DataFrame) (n : String) (t : DType) (df1 : DataFrame)
    (h : with_types df [(n, t)] = Except.ok df1) :
    with_types df1 [(n, t)] = Except.ok df1 := by
  unfold with_types at h ⊢
  cases hcl : colLists [(n, t)] df.columns with
  | error e => simp only [hcl] at h; exact absurd h (by simp)
  | ok all =>
    simp only [hcl] at h
    cases hdn : DataFrame_new all with
    | error e => simp only [hdn] at h; exact absurd h (by simp)
    | ok d =>
      simp only [hdn, Except.ok.injEq] at h
      subst h
      have hcols : d.columns = all := by
        rw [DataFrame_new_ok_columns hdn]
      rw [hcols]
      simp only [colLists_single_idem n t df.columns all hcl, hdn]

/-- Witness for C9: casting the one-column qty String table holding the
text 3 to Integer64 once yields the table of value 3, and the theorem
gives that a second identical cast returns it unchanged. -/
theorem c9_witness :
    with_types ⟨[⟨"qty", DType.tInt64, [Value.vInt 3]⟩]⟩ [("qty", DType.tInt64)] =
      Except.ok ⟨[⟨"qty", DType.tInt64, [Value.vInt 3]⟩]⟩ :=
  c9_cast_idempotent ⟨[⟨"qty", DType.tStr, [Value.vStr "3"]⟩]⟩ "qty" DType.tInt64
    ⟨[⟨"qty", DType.tInt64, [Value.vInt 3]⟩]⟩ (by decide)

/-- C7 counterexample: on the three-column table a, b, c, the pair
list naming b twice (with casts that succeed) makes with_types push the
b column once per matching pair: the result has four columns, not
three, so the column count of the input is not preserved. -/
theorem c7_counterexample :
    with_types ⟨[⟨"a", DType.tInt64, [Value.vInt 1]⟩, ⟨"b", DType.tStr, [Value.vStr "2"]⟩,
        ⟨"c", DType.tBool, [Value.vBool true]⟩]⟩ [("b", DType.tStr), ("b", DType.tStr)] =
      Except.ok ⟨[⟨"a", DType.tInt64, [Value.vInt 1]⟩, ⟨"b", DType.tStr, [Value.vStr "2"]⟩,
        ⟨"b", DType.tStr, [Value.vStr "2"]⟩, ⟨"c", DType.tBool, [Value.vBool true]⟩]⟩ ∧
    (4 : Nat) ≠ 3 := ⟨rfl, by decide⟩

theorem length_le_one_cases {α : Type} (l : List α) (h : l.length ≤ 1) :
    l = [] ∨ ∃ a, l = [a] := by
  match l with
  | [] => exact Or.inl rfl
  | [a] => exact Or.inr ⟨a, rfl⟩
  | a :: b :: t => simp at h

theorem colLists_one_per (pairs : List (String × DType)) :
    ∀ (cols : List Column),
    (∀ col ∈ cols, (pairs.filter (fun p => p.1 = col.name)).length ≤ 1) →
    (∀ col ∈ cols, ∀ p ∈ pairs, p.1 = col.name → (Column.cast col p.2).isSome) →
    ∃ all, colLists pairs cols = Except.ok all ∧ all.length = cols.length ∧
      ∀ i col, cols.get? i = some col → ∃ col', all.get? i = some col' ∧
        col'.name = col.name ∧ col'.values.length = col.values.length ∧
        ((pairs.filter (fun p => p.1 = col.name) = [] ∧ col' = col) ∨
         (∃ p, pairs.filter (fun p => p.1 = col.name) = [p] ∧
           Column.cast col p.2 = some col' ∧ col'.dtype = p.2)) := by
  intro cols
  induction cols with
  | nil =>
    intro _ _
    exact ⟨[], rfl, rfl, fun i col h => by simp at h⟩
  | cons col rest ih =>
    intro hone hcast
    obtain ⟨allr, hclr, halr, hptr⟩ := ih
      (fun c hc => hone c (List.mem_cons_of_mem _ hc))
      (fun c hc => hcast c (List.mem_cons_of_mem _ hc))
    have honec := hone col (List.mem_cons_self col rest)
    rcases length_le_one_cases _ honec with hfil | ⟨p, hfil⟩
    · -- no matching pair: head passes through unchanged
      refine ⟨col :: allr, ?_, by simp [halr], ?_⟩
      · unfold colLists processColumn
        rw [hfil, hclr]
        rfl
      · intro i c hc
        match i with
        | 0 =>
          rw [List.get?_cons_zero, Option.some.injEq] at hc
          subst hc
          exact ⟨col, rfl, rfl, rfl, Or.inl ⟨hfil, rfl⟩⟩
        | Nat.succ j =>
          rw [List.get?_cons_succ] at hc
          exact hptr j c hc
    · -- exactly one matching pair: head is cast
      have hpf : p ∈ pairs.filter (fun q => decide (q.1 = col.name)) := by
        rw [hfil]
        exact List.mem_singleton_self p
      obtain ⟨hp_mem, hp_name⟩ := List.mem_filter.mp hpf
      have hp_name' : p.1 = col.name := of_decide_eq_true hp_name
      have hsome := hcast col (List.mem_cons_self col rest) p hp_mem hp_name'
      obtain ⟨c', hc'⟩ := Option.isSome_iff_exists.mp hsome
      obtain ⟨hname, hdt, hlen⟩ := cast_ok_parts col p.2 c' hc'
      refine ⟨c' :: allr, ?_, by simp [halr], ?_⟩
      · unfold colLists processColumn
        rw [hfil]
        unfold castMatches
        rw [hc', hclr]
        rfl
      · intro i c hc
        match i with
        | 0 =>
          rw [List.get?_cons_zero, Option.some.injEq] at hc
          subst hc
          exact ⟨c', rfl, hname, hlen, Or.inr ⟨p, hfil, hc', hdt⟩⟩
        | Nat.succ j =>
          rw [List.get?_cons_succ] at hc
          exact hptr j c hc

/-- C7 (amended): for every table of equal-length columns and every
pair list in which each column's name matches at most one pair and
every matching cast succeeds, with_types returns a new table with the
same column count and order: the column at each position keeps its name
and length, is the cast of the input column when a pair names it (with
the requested dtype), and is the unchanged input column otherwise. -/
theorem c7_with_types_shape (df : DataFrame) (pairs : List (String × DType)) (n : Nat)
    (hlen : ∀ c ∈ df.columns, c.values.length = n)
    (hone : ∀ col ∈ df.columns, (pairs.filter (fun p => p.1 = col.name)).length ≤ 1)
    (hcast : ∀ col ∈ df.columns, ∀ p ∈ pairs, p.1 = col.name → (Column.cast col p.2).isSome) :
    ∃ df', with_types df pairs = Except.ok df' ∧
      df'.columns.length = df.columns.length ∧
      (∀ i col, df.columns.get? i = some col → ∃ col', df'.columns.get? i = some col' ∧
        col'.name = col.name ∧ col'.values.length = col.values.length ∧
        ((pairs.filter (fun p => p.1 = col.name) = [] ∧ col' = col) ∨
         (∃ p, pairs.filter (fun p => p.1 = col.name) = [p] ∧
           Column.cast col p.2 = some col' ∧ col'.dtype = p.2))) := by
  obtain ⟨all, hcl, hal, hpt⟩ := colLists_one_per pairs df.columns hone hcast
  have hall_len : ∀ c ∈ all, c.values.length = n := by
    intro c hc
    obtain ⟨i, hi⟩ := List.mem_iff_get?.mp hc
    have hilt : i < all.length := (List.get?_eq_some.mp hi).1
    have hilt' : i < df.columns.length := hal ▸ hilt
    cases hcol : df.columns.get? i with
    | none =>
      rw [List.get?_eq_none] at hcol
      omega
    | some col =>
      obtain ⟨col', hgall, _, hlen2, _⟩ := hpt i col hcol
      rw [hi, Option.some.injEq] at hgall
      subst hgall
      rw [hlen2]
      exact hlen col (List.get?_mem hcol)
  have hdn := DataFrame_new_ok_of_lengths all n hall_len
  refine ⟨⟨all⟩, ?_, by simpa using hal, ?_⟩
  · unfold with_types
    simp only [hcl, hdn]
  · intro i col hc
    exact hpt i col hc

/-- Witness for the amended C7: casting only column b of the concrete
three-column table a, b, c. -/
theorem c7_witness :
    ∃ df', with_types ⟨[⟨"a", DType.tInt64, [Value.vInt 1]⟩,
        ⟨"b", DType.tStr, [Value.vStr "2"]⟩,
        ⟨"c", DType.tBool, [Value.vBool true]⟩]⟩ [("b", DType.tInt64)] = Except.ok df' ∧
      df'.columns.length = (⟨[⟨"a", DType.tInt64, [Value.vInt 1]⟩,
        ⟨"b", DType.tStr, [Value.vStr "2"]⟩,
        ⟨"c", DType.tBool, [Value.vBool true]⟩]⟩ : DataFrame).columns.length ∧
      (∀ i col, (⟨[⟨"a", DType.tInt64, [Value.vInt 1]⟩,
          ⟨"b", DType.tStr, [Value.vStr "2"]⟩,
          ⟨"c", DType.tBool, [Value.vBool true]⟩]⟩ : DataFrame).columns.get? i = some col →
        ∃ col', df'.columns.get? i = some col' ∧
        col'.name = col.name ∧ col'.values.length = col.values.length ∧
        (([(("b" : String), DType.tInt64)].filter (fun p => p.1 = col.name)) = [] ∧ col' = col ∨
         (∃ p, ([(("b" : String), DType.tInt64)].filter (fun p => p.1 = col.name)) = [p] ∧
           Column.cast col p.2 = some col' ∧ col'.dtype = p.2))) :=
  c7_with_types_shape ⟨[⟨"a", DType.tInt64, [Value.vInt 1]⟩,
      ⟨"b", DType.tStr, [Value.vStr "2"]⟩,
      ⟨"c", DType.tBool, [Value.vBool true]⟩]⟩ [("b", DType.tInt64)] 1
    (by decide) (by decide) (by decide)

end CTP
